import Mathlib

/-!
Verification development for the notification pipeline of the
`bitcoin_backend` repository (TypeScript, Express + storage layer).

The definitions below are a shallow embedding of the notification-related
storage methods (`src/storage.ts`, classes `DatabaseStorage` and
`MemoryStorage`), the admin enqueue route
(`src/routes/admin.ts`, `POST /api/admin/notifications/queue`) and the
email adapter (`src/services/emailService.ts`).

Modelling conventions:
  - timestamps (`Date` values) are `Nat` milliseconds;
  - a JavaScript `undefined`-able value is an `Option`;
  - the nondeterministically generated id (`Date.now()` + random suffix)
    and the current clock are explicit `freshId` / `now` parameters;
  - a method of a storage class is a function from the relevant table
    (a `List` of rows) and its arguments to the result, paired with the
    table after the call where the claim concerns the stored state;
  - a JavaScript exception boundary is the `Except String` monad;
  - `Array.prototype.sort` with comparator `(a, b) => b.createdAt - a.createdAt`
    is modelled by the stable insertion sort `sortByKeyDesc` below
    (ECMAScript sort is stable, and a stable descending sort is unique).
-/

/-- Row of the `notification_queue` table (`NotificationQueue` in the source).
The source route validates `priority` against the strings
low/normal/high/urgent, so `priority` is a `String`; `metadata` is an opaque
JSON object modelled as an association list. -/
structure NotificationQueue where
  id : String
  userId : Option String
  channel : String
  recipient : String
  subject : String
  message : String
  priority : Option String
  status : String
  retryCount : Nat
  scheduledFor : Nat
  metadata : Option (List (String × String))
  createdAt : Nat
  updatedAt : Nat
deriving Repr, DecidableEq

/-- Insert shape accepted by `addToNotificationQueue` (`InsertNotificationQueue`).
The admin route always supplies `status`, `retryCount` and `scheduledFor`,
so the two latter are required here; `status` stays optional because
`MemoryStorage.addToNotificationQueue` defaults it with `?? 'pending'`. -/
structure InsertNotificationQueue where
  userId : Option String
  channel : String
  recipient : String
  subject : String
  message : String
  priority : Option String
  status : Option String
  retryCount : Nat
  scheduledFor : Nat
  metadata : Option (List (String × String))
deriving Repr, DecidableEq

/-- Row of the `notification_logs` table. The relational schema file is not
part of the provided source; the field list follows the spec data model
(section 3, NotificationLog) which the storage methods spread into. -/
structure NotificationLog where
  id : String
  notificationId : Option String
  userId : Option String
  channel : String
  recipient : String
  status : String
  errorMessage : Option String
  createdAt : Nat
deriving Repr, DecidableEq

/-- Insert shape for `createNotificationLog`: everything except the generated
`id` and `createdAt`. -/
structure InsertNotificationLog where
  notificationId : Option String
  userId : Option String
  channel : String
  recipient : String
  status : String
  errorMessage : Option String
deriving Repr, DecidableEq

/-- A `Partial<NotificationLog>` patch as accepted by `updateNotificationLog`;
every field may be present or absent, and a JavaScript object spread
`{...log, ...updates}` overrides exactly the present ones. -/
structure NotificationLogPatch where
  id : Option String
  notificationId : Option (Option String)
  userId : Option (Option String)
  channel : Option String
  recipient : Option String
  status : Option String
  errorMessage : Option (Option String)
  createdAt : Option Nat
deriving Repr, DecidableEq

/-- Row of the `notification_channels` table, restricted to the fields the
modelled methods read. `DatabaseStorage` filters on the column
`channelType`; `MemoryStorage` objects carry the same value in `type`;
both are the `type` field here. -/
structure NotificationChannel where
  id : String
  name : String
  type : String
  isEnabled : Bool
  isHealthy : Bool
  errorCount : Nat
  successCount : Nat
deriving Repr, DecidableEq

/-- Truthiness of an optional string argument, as tested by
`if (status) { ... }` in the source: absent and empty are falsy. -/
def strTruthy : Option String → Bool
  | none => false
  | some s => !(s = "")

/-- Truthiness of an optional numeric argument, as tested by
`limit ? sorted.slice(0, limit) : sorted`: absent and `0` are falsy. -/
def natTruthy : Option Nat → Bool
  | none => false
  | some n => !(n = 0)

/-- JavaScript object spread `{...a, ...b}` on string-keyed records with
unique keys: keys of `a` keep their position with values overridden by `b`,
keys only in `b` are appended in order. -/
def spreadMerge (a b : List (String × String)) : List (String × String) :=
  a.map (fun p => match b.find? (fun q => q.1 = p.1) with
    | some q => q
    | none => p)
  ++ b.filter (fun q => (a.find? (fun p => p.1 = q.1)).isNone)

/-- Stable insertion step for a descending sort on a `Nat` key: `x` is
placed before the first element whose key is not larger, so among equal
keys the original order is kept (matching the stable ECMAScript sort). -/
def insertByKeyDesc {α : Type} (key : α → Nat) (x : α) : List α → List α
  | [] => [x]
  | y :: ys => if key x < key y then y :: insertByKeyDesc key x ys else x :: y :: ys

/-- Stable descending sort on a `Nat` key; models
`arr.sort((a, b) => key(b) - key(a))`. -/
def sortByKeyDesc {α : Type} (key : α → Nat) : List α → List α
  | [] => []
  | x :: xs => insertByKeyDesc key x (sortByKeyDesc key xs)

theorem mem_insertByKeyDesc {α : Type} (key : α → Nat) (x a : α) (l : List α) :
    a ∈ insertByKeyDesc key x l ↔ a = x ∨ a ∈ l := by
  induction l with
  | nil => simp [insertByKeyDesc]
  | cons y ys ih =>
    by_cases h : key x < key y
    · simp only [insertByKeyDesc, if_pos h, List.mem_cons, ih]
      try tauto
    · simp only [insertByKeyDesc, if_neg h, List.mem_cons]

theorem length_insertByKeyDesc {α : Type} (key : α → Nat) (x : α) (l : List α) :
    (insertByKeyDesc key x l).length = l.length + 1 := by
  induction l with
  | nil => simp [insertByKeyDesc]
  | cons y ys ih =>
    by_cases h : key x < key y
    · simp [insertByKeyDesc, if_pos h, ih]
    · simp [insertByKeyDesc, if_neg h]

theorem mem_sortByKeyDesc {α : Type} (key : α → Nat) (a : α) (l : List α) :
    a ∈ sortByKeyDesc key l ↔ a ∈ l := by
  induction l with
  | nil => simp [sortByKeyDesc]
  | cons y ys ih =>
    simp only [sortByKeyDesc, mem_insertByKeyDesc, ih, List.mem_cons]
    try tauto

theorem length_sortByKeyDesc {α : Type} (key : α → Nat) (l : List α) :
    (sortByKeyDesc key l).length = l.length := by
  induction l with
  | nil => rfl
  | cons y ys ih => simp [sortByKeyDesc, length_insertByKeyDesc, ih]

theorem sorted_insertByKeyDesc {α : Type} (key : α → Nat) (x : α) (l : List α)
    (h : List.Sorted (fun a b => key b ≤ key a) l) :
    List.Sorted (fun a b => key b ≤ key a) (insertByKeyDesc key x l) := by
  induction l with
  | nil => simp [insertByKeyDesc]
  | cons y ys ih =>
    rw [List.sorted_cons] at h
    by_cases hc : key x < key y
    · rw [insertByKeyDesc, if_pos hc, List.sorted_cons]
      refine ⟨?_, ih h.2⟩
      intro b hb
      rcases (mem_insertByKeyDesc key x b ys).mp hb with rfl | hb
      · exact Nat.le_of_lt hc
      · exact h.1 b hb
    · rw [insertByKeyDesc, if_neg hc, List.sorted_cons]
      refine ⟨?_, List.sorted_cons.mpr h⟩
      intro b hb
      rcases List.mem_cons.mp hb with rfl | hb
      · exact Nat.le_of_not_lt hc
      · exact Nat.le_trans (h.1 b hb) (Nat.le_of_not_lt hc)

theorem sorted_sortByKeyDesc {α : Type} (key : α → Nat) (l : List α) :
    List.Sorted (fun a b => key b ≤ key a) (sortByKeyDesc key l) := by
  induction l with
  | nil => simp [sortByKeyDesc]
  | cons y ys ih => exact sorted_insertByKeyDesc key y (sortByKeyDesc key ys) ih

/-- Statistics record returned by `DatabaseStorage.getNotificationStats`.
The source formats `successRate` as `(sent / total * 100).toFixed(1) + '%'`
through floating point; the model keeps the exact ratio `(sent, total)`
(`none` when `total = 0`, where the source returns the string 0%). -/
structure DbNotificationStats where
  total : Nat
  sent : Nat
  failed : Nat
  pending : Nat
  successRate : Option (Nat × Nat)
  channelsEmail : Nat
  channelsSms : Nat
  channelsPush : Nat
deriving Repr, DecidableEq

/-- Statistics record returned by `MemoryStorage.getNotificationStats`:
a different shape, with a dynamic per-channel count map. -/
structure MemNotificationStats where
  total : Nat
  successful : Nat
  failed : Nat
  byChannel : List (String × Nat)
deriving Repr, DecidableEq

/-- One step of the `filtered.forEach(log => stats.byChannel[log.channel] = (stats.byChannel[log.channel] || 0) + 1)`
accumulation: bump the count of channel `c`, inserting it at the end on
first sight (JavaScript object keys keep insertion order). -/
def bumpChannel (m : List (String × Nat)) (c : String) : List (String × Nat) :=
  match m.find? (fun p => p.1 = c) with
  | some _ => m.map (fun p => if p.1 = c then (p.1, p.2 + 1) else p)
  | none => m ++ [(c, 1)]

namespace MemoryStorage

/-- MemoryStorage.getNotificationQueue(limit?): copies the array, sorts it by
`createdAt` descending, and returns `limit ? sorted.slice(0, limit) : sorted`.
No filter on `status` or `scheduledFor` is applied. -/
def getNotificationQueue (q : List NotificationQueue) (limit : Option Nat) :
    List NotificationQueue :=
  let sorted := sortByKeyDesc (fun n => n.createdAt) q
  if natTruthy limit then sorted.take (limit.getD 0) else sorted

/-- MemoryStorage.getQueuedNotifications(status?): filters on `status` when
the argument is truthy, sorts by `createdAt` descending. The method reads
`this.notificationQueue` through a copy and never assigns to it, so the
stored table (second component) is returned unchanged: no item is claimed. -/
def getQueuedNotifications (q : List NotificationQueue) (status : Option String) :
    List NotificationQueue × List NotificationQueue :=
  let filtered := if strTruthy status then q.filter (fun n => n.status = status.getD "") else q
  (sortByKeyDesc (fun n => n.createdAt) filtered, q)

/-- MemoryStorage.addToNotificationQueue: builds the new row from the insert
shape (status defaulted with `?? 'pending'`), pushes it at the end of the
array and returns it. -/
def addToNotificationQueue (q : List NotificationQueue)
    (notification : InsertNotificationQueue) (freshId : String) (now : Nat) :
    NotificationQueue × List NotificationQueue :=
  let newNotification : NotificationQueue :=
    { id := freshId
    , userId := notification.userId
    , channel := notification.channel
    , recipient := notification.recipient
    , subject := notification.subject
    , message := notification.message
    , priority := notification.priority
    , status := notification.status.getD "pending"
    , retryCount := notification.retryCount
    , scheduledFor := notification.scheduledFor
    , metadata := notification.metadata
    , createdAt := now
    , updatedAt := now }
  (newNotification, q ++ [newNotification])

/-- MemoryStorage.updateNotificationQueueStatus: findIndex on `id`; when
absent, returns undefined with the table untouched; when present, replaces
the first matching row with a copy whose `status`, `metadata` (spread-merged
when an argument is given) and `updatedAt` change. The recursion below is
findIndex-then-replace written structurally. -/
def updateNotificationQueueStatus (q : List NotificationQueue) (id status : String)
    (metadata : Option (List (String × String))) (now : Nat) :
    Option NotificationQueue × List NotificationQueue :=
  match q with
  | [] => (none, [])
  | n :: rest =>
    if n.id = id then
      let updated : NotificationQueue :=
        { n with
          status := status
        , metadata := match metadata with
            | some m => some (spreadMerge (n.metadata.getD []) m)
            | none => n.metadata
        , updatedAt := now }
      (some updated, updated :: rest)
    else
      let tail := updateNotificationQueueStatus rest id status metadata now
      (tail.1, n :: tail.2)

/-- MemoryStorage.createNotificationLog: builds the row from the insert shape
with a generated id and `createdAt`, pushes it at the end of the array. -/
def createNotificationLog (logs : List NotificationLog)
    (log : InsertNotificationLog) (freshId : String) (now : Nat) :
    NotificationLog × List NotificationLog :=
  let newLog : NotificationLog :=
    { id := freshId
    , notificationId := log.notificationId
    , userId := log.userId
    , channel := log.channel
    , recipient := log.recipient
    , status := log.status
    , errorMessage := log.errorMessage
    , createdAt := now }
  (newLog, logs ++ [newLog])

/-- Spread `{...log, ...updates}` of a partial patch over a log row. -/
def applyLogPatch (l : NotificationLog) (u : NotificationLogPatch) : NotificationLog :=
  { id := u.id.getD l.id
  , notificationId := u.notificationId.getD l.notificationId
  , userId := u.userId.getD l.userId
  , channel := u.channel.getD l.channel
  , recipient := u.recipient.getD l.recipient
  , status := u.status.getD l.status
  , errorMessage := u.errorMessage.getD l.errorMessage
  , createdAt := u.createdAt.getD l.createdAt }

/-- MemoryStorage.updateNotificationLog: findIndex on `id`; replaces the
first matching row in place with `{...log, ...updates}` and returns it,
or returns undefined leaving the array untouched. -/
def updateNotificationLog (logs : List NotificationLog) (id : String)
    (updates : NotificationLogPatch) :
    Option NotificationLog × List NotificationLog :=
  match logs with
  | [] => (none, [])
  | l :: rest =>
    if l.id = id then
      let updated := applyLogPatch l updates
      (some updated, updated :: rest)
    else
      let tail := updateNotificationLog rest id updates
      (tail.1, l :: tail.2)

/-- MemoryStorage.getNotificationStats(dateFrom?, dateTo?): filters the log
rows to `createdAt >= dateFrom` and `createdAt <= dateTo` when present,
counts rows with status sent as `successful`, rows with status failed
as `failed`, and accumulates a per-channel count over every row. -/
def getNotificationStats (logs : List NotificationLog)
    (dateFrom dateTo : Option Nat) : MemNotificationStats :=
  let f1 : List NotificationLog := match dateFrom with
    | some f => logs.filter (fun l => f ≤ l.createdAt)
    | none => logs
  let f2 : List NotificationLog := match dateTo with
    | some t => f1.filter (fun l => l.createdAt ≤ t)
    | none => f1
  { total := f2.length
  , successful := (f2.filter (fun l => l.status = "sent")).length
  , failed := (f2.filter (fun l => l.status = "failed")).length
  , byChannel := f2.foldl (fun m l => bumpChannel m l.channel) [] }

/-- MemoryStorage.getNotificationChannelByType: first channel whose `type`
matches and which is enabled; health is not consulted. -/
def getNotificationChannelByType (channels : List NotificationChannel)
    (type : String) : Option NotificationChannel :=
  channels.find? (fun c => c.type = type && c.isEnabled)

end MemoryStorage

namespace DatabaseStorage

/-- DatabaseStorage.getNotificationQueue(limit = 50): `SELECT ... ORDER BY
created_at DESC LIMIT limit` over the whole table; no filter on `status`
or `scheduledFor`. SQL leaves the order of `createdAt` ties unspecified;
the model fixes the stable order. -/
def getNotificationQueue (q : List NotificationQueue) (limit : Nat) :
    List NotificationQueue :=
  (sortByKeyDesc (fun n => n.createdAt) q).take limit

/-- DatabaseStorage.getQueuedNotifications(status?): conditional
`WHERE status = $status`, `ORDER BY created_at DESC`. A select never
writes, so the table (second component) is returned unchanged: no item
is claimed. -/
def getQueuedNotifications (q : List NotificationQueue) (status : Option String) :
    List NotificationQueue × List NotificationQueue :=
  let filtered := if strTruthy status then q.filter (fun n => n.status = status.getD "") else q
  (sortByKeyDesc (fun n => n.createdAt) filtered, q)

/-- DatabaseStorage.updateNotificationQueueStatus: a single `UPDATE ... WHERE
id = $id` setting `status`, `updatedAt` and, when the argument is given,
`metadata` (replaced wholesale, unlike the MemoryStorage merge); returns the
first updated row or undefined when none matched. -/
def updateNotificationQueueStatus (q : List NotificationQueue) (id status : String)
    (metadata : Option (List (String × String))) (now : Nat) :
    Option NotificationQueue × List NotificationQueue :=
  let updateRow : NotificationQueue → NotificationQueue := fun n =>
    { n with
      status := status
    , metadata := match metadata with
        | some m => some m
        | none => n.metadata
    , updatedAt := now }
  let q2 := q.map (fun n => if n.id = id then updateRow n else n)
  ((q2.filter (fun n => n.id = id)).head?, q2)

/-- DatabaseStorage.getNotificationStats(dateFrom?, dateTo?): builds one
select and reassigns `query = query.where(...)` once per supplied bound;
drizzle-orm's `where` replaces the previous condition on the builder, so
when both bounds are supplied only the `dateTo` filter is effective.
`sent` counts rows with status delivered (not sent), `pending` counts
rows with status pending, and the breakdown covers only the three fixed
channels email, sms, push. -/
def getNotificationStats (logs : List NotificationLog)
    (dateFrom dateTo : Option Nat) : DbNotificationStats :=
  let filtered : List NotificationLog := match dateTo with
    | some t => logs.filter (fun l => l.createdAt ≤ t)
    | none => match dateFrom with
      | some f => logs.filter (fun l => f ≤ l.createdAt)
      | none => logs
  let totalSent := (filtered.filter (fun l => l.status = "delivered")).length
  let totalFailed := (filtered.filter (fun l => l.status = "failed")).length
  let totalPending := (filtered.filter (fun l => l.status = "pending")).length
  { total := filtered.length
  , sent := totalSent
  , failed := totalFailed
  , pending := totalPending
  , successRate := if 0 < filtered.length then some (totalSent, filtered.length) else none
  , channelsEmail := (filtered.filter (fun l => l.channel = "email")).length
  , channelsSms := (filtered.filter (fun l => l.channel = "sms")).length
  , channelsPush := (filtered.filter (fun l => l.channel = "push")).length }

/-- DatabaseStorage.getNotificationChannelByType: first row with matching
`channelType` column; neither `isEnabled` nor `isHealthy` is consulted. -/
def getNotificationChannelByType (channels : List NotificationChannel)
    (type : String) : Option NotificationChannel :=
  channels.find? (fun c => c.type = type)

end DatabaseStorage

/-- Argument record of `EmailService.sendEmail` (`EmailParams` in the source);
`to` and `from` are Lean keywords and are embedded as `toAddr` / `fromAddr`. -/
structure EmailParams where
  toAddr : String
  fromAddr : String
  subject : String
  text : Option String
  html : Option String
deriving Repr, DecidableEq

/-- Payload handed to `sgMail.send` after the defaulting and conditional
spreads in `sendEmail`. -/
structure MailData where
  toAddr : String
  fromAddr : String
  subject : String
  text : Option String
  html : Option String
deriving Repr, DecidableEq

namespace EmailService

/-- Construction of the `mailData` object: `params.from || default` defaults
a falsy (empty) sender, and the `...(params.text && { text: params.text })`
spreads include each body field only when it is present and non-empty. -/
def mailDataOf (params : EmailParams) : MailData :=
  { toAddr := params.toAddr
  , fromAddr := if params.fromAddr = "" then "noreply@proudprofits.com" else params.fromAddr
  , subject := params.subject
  , text := match params.text with
      | some t => if t = "" then none else some t
      | none => none
  , html := match params.html with
      | some h => if h = "" then none else some h
      | none => none }

/-- EmailService.sendEmail: when the service is disabled (constructed without
SENDGRID_API_KEY) it logs and returns false without touching the transport;
otherwise it calls `sgMail.send` inside try/catch, returning true on success
and false on any thrown transport error. The first component is the
result at the promise boundary (`Except.error` would be a rejection);
the second lists the transport invocations made. -/
def sendEmail (isEnabled : Bool) (send : MailData → Except String Unit)
    (params : EmailParams) : Except String Bool × List MailData :=
  if isEnabled = false then (Except.ok false, [])
  else
    match send (mailDataOf params) with
    | Except.ok _ => (Except.ok true, [mailDataOf params])
    | Except.error _ => (Except.ok false, [mailDataOf params])

end EmailService

/-- Channels accepted by the route validator
`body('channel').isIn(['email', 'sms', 'push', 'telegram', 'discord'])`. -/
def allowedChannels : List String := ["email", "sms", "push", "telegram", "discord"]

/-- Priorities accepted by
`body('priority').optional().isIn(['low', 'normal', 'high', 'urgent'])`. -/
def allowedPriorities : List String := ["low", "normal", "high", "urgent"]

/-- Hexadecimal digit test used by the UUID format check. -/
def isHexDigit (c : Char) : Bool :=
  c.isDigit || ('a' ≤ c && c ≤ 'f') || ('A' ≤ c && c ≤ 'F')

/-- Hyphen-splitting of a character list, mirroring a split of the string
on `-` (there is always at least one, possibly empty, group). -/
def splitDash : List Char → List (List Char)
  | [] => [[]]
  | c :: cs =>
    let rest := splitDash cs
    if c = '-' then [] :: rest
    else match rest with
      | [] => [[c]]
      | g :: gs => (c :: g) :: gs

/-- Format check of express-validator `isUUID()` (version `all`):
five hyphen-separated hexadecimal groups of lengths 8-4-4-4-12. -/
def isUUID (s : String) : Bool :=
  match splitDash s.data with
  | [a, b, c, d, e] =>
    a.length = 8 && b.length = 4 && c.length = 4 && d.length = 4 && e.length = 12 &&
    a.all isHexDigit && b.all isHexDigit && c.all isHexDigit &&
    d.all isHexDigit && e.all isHexDigit
  | _ => false

/-- Body of `POST /api/admin/notifications/queue` as far as the validator
chain reads it. -/
structure QueueRequest where
  userId : String
  channel : String
  recipient : String
  subject : String
  message : String
  priority : Option String
  scheduledFor : Option Nat
  metadata : Option (List (String × String))
deriving Repr, DecidableEq

/-- Conjunction of the route validator chain: `userId` must be a UUID,
`channel` one of the five recognized strings, `recipient`, `subject` and
`message` non-empty, and `priority`, when present, one of the four levels.
`validateInput` rejects the request with a 400 VALIDATION_ERROR response
before the handler runs when any check fails. -/
def queueRequestValid (r : QueueRequest) : Bool :=
  isUUID r.userId &&
  allowedChannels.contains r.channel &&
  !(r.recipient = "") &&
  !(r.subject = "") &&
  !(r.message = "") &&
  (match r.priority with
    | none => true
    | some p => allowedPriorities.contains p)

/-- Outcome of the enqueue route: 201 with the created row, or the 400
validation rejection. -/
inductive PostQueueResult
  | created (notification : NotificationQueue)
  | validationError
deriving Repr, DecidableEq

/-- Handler of `POST /api/admin/notifications/queue`: after validation it
builds `notificationData` as `{...req.body, status: 'pending', retryCount: 0,
scheduledFor: body value or now}` (the later literal keys override any
body-supplied `status`/`retryCount`) and delegates to
`storage.addToNotificationQueue`. -/
def postNotificationsQueue (q : List NotificationQueue) (r : QueueRequest)
    (freshId : String) (now : Nat) : PostQueueResult × List NotificationQueue :=
  if queueRequestValid r then
    let notificationData : InsertNotificationQueue :=
      { userId := some r.userId
      , channel := r.channel
      , recipient := r.recipient
      , subject := r.subject
      , message := r.message
      , priority := r.priority
      , status := some "pending"
      , retryCount := 0
      , scheduledFor := r.scheduledFor.getD now
      , metadata := r.metadata }
    let result := MemoryStorage.addToNotificationQueue q notificationData freshId now
    (PostQueueResult.created result.1, result.2)
  else
    (PostQueueResult.validationError, q)

/-! ### Concrete fixtures used by counterexamples and witnesses -/

/-- An eligible pending queue item. -/
def pendingItem : NotificationQueue :=
  { id := "n1", userId := some "u1", channel := "email", recipient := "user@example.com"
  , subject := "subj", message := "msg", priority := some "normal", status := "pending"
  , retryCount := 0, scheduledFor := 0, metadata := none, createdAt := 10, updatedAt := 10 }

/-- A terminal (sent) queue item scheduled in the future. -/
def sentItem : NotificationQueue :=
  { id := "n2", userId := some "u1", channel := "email", recipient := "user@example.com"
  , subject := "subj", message := "msg", priority := some "normal", status := "sent"
  , retryCount := 0, scheduledFor := 1000, metadata := none, createdAt := 20, updatedAt := 20 }

/-! ### C1: atomic claim in dequeueReady -/

/-- C1 counterexample: against a store holding one pending eligible item,
two successive `getQueuedNotifications` calls (one legal schedule of two
racing workers, the state of the first call threaded into the second) both
return the item, and the stored state still holds it as `pending`: the
union of the returned batches is not a partition of the eligible set, and
no pending-to-processing claim happened. -/
theorem getQueuedNotifications_double_return_cex :
    pendingItem ∈ (MemoryStorage.getQueuedNotifications [pendingItem] (some "pending")).1 ∧
    pendingItem ∈ (MemoryStorage.getQueuedNotifications
      (MemoryStorage.getQueuedNotifications [pendingItem] (some "pending")).2
      (some "pending")).1 ∧
    (MemoryStorage.getQueuedNotifications
      (MemoryStorage.getQueuedNotifications [pendingItem] (some "pending")).2
      (some "pending")).2 = [pendingItem] := by decide

/-- C1 amended: `getQueuedNotifications` is a pure read in both storage
backends: the stored table is returned unchanged (no item is moved to
`processing`, so racing dequeues are not a partition of the eligible set),
and each returned item is a stored item whose status matches a truthy
status filter. -/
theorem getQueuedNotifications_pure_read :
    (∀ (q : List NotificationQueue) (s : Option String),
      (MemoryStorage.getQueuedNotifications q s).2 = q) ∧
    (∀ (q : List NotificationQueue) (s : Option String),
      (DatabaseStorage.getQueuedNotifications q s).2 = q) ∧
    (∀ (q : List NotificationQueue) (s : Option String) (x : NotificationQueue),
      x ∈ (MemoryStorage.getQueuedNotifications q s).1 →
        x ∈ q ∧ (strTruthy s = true → x.status = s.getD "")) := by
  refine ⟨fun q s => rfl, fun q s => rfl, fun q s x hx => ?_⟩
  simp only [MemoryStorage.getQueuedNotifications] at hx
  rw [mem_sortByKeyDesc] at hx
  by_cases h : strTruthy s = true
  · rw [if_pos h] at hx
    have hm := List.mem_filter.mp hx
    refine ⟨hm.1, fun _ => ?_⟩
    simpa using hm.2
  · rw [if_neg h] at hx
    exact ⟨hx, fun hs => absurd hs h⟩

/-- C1 witness: the amended theorem applied to the one-item store. -/
theorem getQueuedNotifications_pure_read_witness :
    pendingItem ∈ [pendingItem] ∧
      (strTruthy (some "pending") = true → pendingItem.status = (some "pending").getD "") :=
  getQueuedNotifications_pure_read.2.2 [pendingItem] (some "pending") pendingItem (by decide)

/-! ### C2: contents and order of the dequeued batch -/

/-- C2 counterexample: a store holding one `sent` item scheduled in the
future; the batch returned by both backends is exactly that item, so the
returned items are not restricted to pending, already-due ones. -/
theorem getNotificationQueue_returns_terminal_cex :
    DatabaseStorage.getNotificationQueue [sentItem] 50 = [sentItem] ∧
    MemoryStorage.getNotificationQueue [sentItem] (some 50) = [sentItem] ∧
    sentItem.status = "sent" := by decide

/-- C2 amended: `getNotificationQueue` in both backends returns the stored
items with no filter on `status` or `scheduledFor` and no priority order:
the batch is ordered by `createdAt` descending, capped at `limit`
(`MemoryStorage` treats an absent or zero limit as no cap and then returns
every stored item). -/
theorem getNotificationQueue_recency_cap :
    (∀ (q : List NotificationQueue) (limit : Nat),
      (DatabaseStorage.getNotificationQueue q limit).length ≤ limit) ∧
    (∀ (q : List NotificationQueue) (limit : Nat),
      List.Sorted (fun a b => b.createdAt ≤ a.createdAt)
        (DatabaseStorage.getNotificationQueue q limit)) ∧
    (∀ (q : List NotificationQueue) (limit : Nat) (x : NotificationQueue),
      x ∈ DatabaseStorage.getNotificationQueue q limit → x ∈ q) ∧
    (∀ (q : List NotificationQueue) (x : NotificationQueue),
      x ∈ q → x ∈ MemoryStorage.getNotificationQueue q none) ∧
    (∀ (q : List NotificationQueue) (l : Nat), 0 < l →
      (MemoryStorage.getNotificationQueue q (some l)).length ≤ l) ∧
    (∀ (q : List NotificationQueue) (limit : Option Nat),
      List.Sorted (fun a b => b.createdAt ≤ a.createdAt)
        (MemoryStorage.getNotificationQueue q limit)) := by
  refine ⟨fun q limit => ?_, fun q limit => ?_, fun q limit x hx => ?_,
    fun q x hx => ?_, fun q l hl => ?_, fun q limit => ?_⟩
  · exact List.length_take_le limit (sortByKeyDesc (fun n : NotificationQueue => n.createdAt) q)
  · exact List.Pairwise.sublist (List.take_sublist limit _)
      (sorted_sortByKeyDesc (fun n : NotificationQueue => n.createdAt) q)
  · exact (mem_sortByKeyDesc (fun n : NotificationQueue => n.createdAt) x q).mp
      ((List.take_sublist limit _).subset hx)
  · simp only [MemoryStorage.getNotificationQueue, natTruthy, if_neg]
    exact (mem_sortByKeyDesc (fun n : NotificationQueue => n.createdAt) x q).mpr hx
  · have ht : natTruthy (some l) = true := by
      simp [natTruthy, Nat.pos_iff_ne_zero.mp hl]
    simp only [MemoryStorage.getNotificationQueue, ht, if_pos, Option.getD_some]
    exact List.length_take_le l _
  · by_cases h : natTruthy limit = true
    · simp only [MemoryStorage.getNotificationQueue, h, if_pos]
      exact List.Pairwise.sublist (List.take_sublist _ _)
        (sorted_sortByKeyDesc (fun n : NotificationQueue => n.createdAt) q)
    · simp only [MemoryStorage.getNotificationQueue, h, if_neg]
      exact sorted_sortByKeyDesc (fun n : NotificationQueue => n.createdAt) q

/-- C2 witness: the amended theorem applied to the one-item store. -/
theorem getNotificationQueue_recency_cap_witness :
    sentItem ∈ [sentItem] ∧
    sentItem ∈ MemoryStorage.getNotificationQueue [sentItem] none ∧
    (MemoryStorage.getNotificationQueue [sentItem] (some 1)).length ≤ 1 :=
  ⟨getNotificationQueue_recency_cap.2.2.1 [sentItem] 50 sentItem (by decide),
   getNotificationQueue_recency_cap.2.2.2.1 [sentItem] sentItem (by decide),
   getNotificationQueue_recency_cap.2.2.2.2.1 [sentItem] 1 (by decide)⟩

/-! ### C3: enqueue route validation -/

/-- A webhook enqueue request whose other fields all pass the validators. -/
def webhookRequest : QueueRequest :=
  { userId := "123e4567-e89b-12d3-a456-426614174000", channel := "webhook"
  , recipient := "https://example.com/hook", subject := "subj", message := "msg"
  , priority := none, scheduledFor := none, metadata := none }

/-- A fully valid email enqueue request. -/
def validEmailRequest : QueueRequest :=
  { userId := "123e4567-e89b-12d3-a456-426614174000", channel := "email"
  , recipient := "user@example.com", subject := "subj", message := "msg"
  , priority := some "high", scheduledFor := none, metadata := none }

/-- A request with an empty recipient but otherwise valid fields. -/
def emptyRecipientRequest : QueueRequest :=
  { userId := "123e4567-e89b-12d3-a456-426614174000", channel := "email"
  , recipient := "", subject := "subj", message := "msg"
  , priority := none, scheduledFor := none, metadata := none }

/-- C3 counterexample: the webhook channel, part of the spec enum, is
rejected by the route validator (`isIn` lists only email, sms, push,
telegram, discord), so a fully valid webhook request creates no item. -/
theorem postNotificationsQueue_webhook_rejected_cex :
    0 < webhookRequest.recipient.length ∧
    postNotificationsQueue [] webhookRequest "q1" 0
      = (PostQueueResult.validationError, []) := by decide

/-- C3 amended: the route rejects, with a validation error and no persisted
item, any request with an empty recipient or a channel outside
email/sms/push/telegram/discord (in particular webhook); every request
passing the full validator chain (which also demands a UUID userId,
non-empty subject and message, and a recognized priority when present)
appends exactly one item with status pending and retryCount 0. -/
theorem postNotificationsQueue_validation :
    (∀ (q : List NotificationQueue) (r : QueueRequest) (fid : String) (now : Nat),
      r.recipient = "" →
      postNotificationsQueue q r fid now = (PostQueueResult.validationError, q)) ∧
    (∀ (q : List NotificationQueue) (r : QueueRequest) (fid : String) (now : Nat),
      allowedChannels.contains r.channel = false →
      postNotificationsQueue q r fid now = (PostQueueResult.validationError, q)) ∧
    (∀ (q : List NotificationQueue) (r : QueueRequest) (fid : String) (now : Nat),
      queueRequestValid r = true →
      ∃ n, postNotificationsQueue q r fid now = (PostQueueResult.created n, q ++ [n]) ∧
        n.status = "pending" ∧ n.retryCount = 0 ∧
        n.channel = r.channel ∧ n.recipient = r.recipient) := by
  refine ⟨fun q r fid now h => ?_, fun q r fid now h => ?_, fun q r fid now hv => ?_⟩
  · have hv : queueRequestValid r = false := by simp [queueRequestValid, h]
    simp [postNotificationsQueue, hv]
  · have h2 : ¬ r.channel ∈ allowedChannels := by simpa using h
    have hv : queueRequestValid r = false := by simp [queueRequestValid, h2]
    simp [postNotificationsQueue, hv]
  · refine ⟨{ id := fid, userId := some r.userId, channel := r.channel
            , recipient := r.recipient, subject := r.subject, message := r.message
            , priority := r.priority, status := "pending", retryCount := 0
            , scheduledFor := r.scheduledFor.getD now, metadata := r.metadata
            , createdAt := now, updatedAt := now }, ?_, rfl, rfl, rfl, rfl⟩
    simp [postNotificationsQueue, hv, MemoryStorage.addToNotificationQueue]

/-- C3 witness: the amended theorem applied to the empty-recipient request
and to the valid email request. -/
theorem postNotificationsQueue_validation_witness :
    postNotificationsQueue [] emptyRecipientRequest "q1" 0
      = (PostQueueResult.validationError, []) ∧
    ∃ n, postNotificationsQueue [] validEmailRequest "q2" 5
        = (PostQueueResult.created n, [] ++ [n]) ∧
      n.status = "pending" ∧ n.retryCount = 0 ∧
      n.channel = validEmailRequest.channel ∧ n.recipient = validEmailRequest.recipient :=
  ⟨postNotificationsQueue_validation.1 [] emptyRecipientRequest "q1" 0 rfl,
   postNotificationsQueue_validation.2.2 [] validEmailRequest "q2" 5 (by decide)⟩

/-! ### C4: terminal items and status updates -/

/-- C4 counterexample: `updateNotificationQueueStatus` applied to a `sent`
(terminal) item succeeds in both backends and rewrites the stored status to
cancelled: no InvalidStateError, and the item does not stay unchanged. -/
theorem updateNotificationQueueStatus_terminal_cex :
    sentItem.status = "sent" ∧
    (MemoryStorage.updateNotificationQueueStatus [sentItem] "n2" "cancelled" none 30).1
      = some { sentItem with status := "cancelled", updatedAt := 30 } ∧
    (MemoryStorage.updateNotificationQueueStatus [sentItem] "n2" "cancelled" none 30).2
      = [{ sentItem with status := "cancelled", updatedAt := 30 }] ∧
    (DatabaseStorage.updateNotificationQueueStatus [sentItem] "n2" "cancelled" none 30).1
      = some { sentItem with status := "cancelled", updatedAt := 30 } := by decide

/-- C4 amended: both backends apply any requested status to any stored item
with the given id unconditionally: whatever the current status (pending,
processing, sent, failed or cancelled), the update returns a row carrying
the new status; no transition is rejected. -/
theorem updateNotificationQueueStatus_unconditional :
    (∀ (q : List NotificationQueue) (id st : String)
        (m : Option (List (String × String))) (now : Nat) (n : NotificationQueue),
      n ∈ q → n.id = id →
      ∃ r, (MemoryStorage.updateNotificationQueueStatus q id st m now).1 = some r ∧
        r.status = st) ∧
    (∀ (q : List NotificationQueue) (id st : String)
        (m : Option (List (String × String))) (now : Nat) (n : NotificationQueue),
      n ∈ q → n.id = id →
      ∃ r, (DatabaseStorage.updateNotificationQueueStatus q id st m now).1 = some r ∧
        r.status = st) := by
  constructor
  · intro q id st m now
    induction q with
    | nil => intro n hn _; exact absurd hn (List.not_mem_nil n)
    | cons y ys ih =>
      intro n hn hid
      by_cases hy : y.id = id
      · cases m with
        | none =>
          refine ⟨{ y with status := st, updatedAt := now }, ?_, rfl⟩
          simp [MemoryStorage.updateNotificationQueueStatus, hy]
        | some mm =>
          refine ⟨{ y with status := st, metadata := some (spreadMerge (y.metadata.getD []) mm), updatedAt := now }, ?_, rfl⟩
          simp [MemoryStorage.updateNotificationQueueStatus, hy]
      · rcases List.mem_cons.mp hn with rfl | hn2
        · exact absurd hid hy
        · obtain ⟨r, hr, hs⟩ := ih n hn2 hid
          refine ⟨r, ?_, hs⟩
          simpa [MemoryStorage.updateNotificationQueueStatus, hy] using hr
  · intro q id st m now
    induction q with
    | nil => intro n hn _; exact absurd hn (List.not_mem_nil n)
    | cons y ys ih =>
      intro n hn hid
      by_cases hy : y.id = id
      · cases m with
        | none =>
          refine ⟨{ y with status := st, updatedAt := now }, ?_, rfl⟩
          simp [DatabaseStorage.updateNotificationQueueStatus, hy]
        | some mm =>
          refine ⟨{ y with status := st, metadata := some mm, updatedAt := now }, ?_, rfl⟩
          simp [DatabaseStorage.updateNotificationQueueStatus, hy]
      · rcases List.mem_cons.mp hn with rfl | hn2
        · exact absurd hid hy
        · obtain ⟨r, hr, hs⟩ := ih n hn2 hid
          refine ⟨r, ?_, hs⟩
          simpa [DatabaseStorage.updateNotificationQueueStatus, hy] using hr

/-- C4 witness: the amended theorem applied to the one-item store holding a
terminal item. -/
theorem updateNotificationQueueStatus_unconditional_witness :
    (∃ r, (MemoryStorage.updateNotificationQueueStatus
        [sentItem] "n2" "cancelled" none 30).1 = some r ∧ r.status = "cancelled") ∧
    (∃ r, (DatabaseStorage.updateNotificationQueueStatus
        [sentItem] "n2" "cancelled" none 30).1 = some r ∧ r.status = "cancelled") :=
  ⟨updateNotificationQueueStatus_unconditional.1 [sentItem] "n2" "cancelled" none 30
      sentItem (by decide) (by decide),
   updateNotificationQueueStatus_unconditional.2 [sentItem] "n2" "cancelled" none 30
      sentItem (by decide) (by decide)⟩

/-! ### C9: frame of updateNotificationQueueStatus -/

/-- Projection of a queue item onto the fields `updateNotificationQueueStatus`
never touches. -/
def frameProj (n : NotificationQueue) :
    String × Option String × String × String × String × String ×
      Option String × Nat × Nat × Nat :=
  (n.id, n.userId, n.channel, n.recipient, n.subject, n.message, n.priority,
   n.retryCount, n.scheduledFor, n.createdAt)

/-- C9: in both backends, `updateNotificationQueueStatus` leaves `id`,
`userId`, `channel`, `recipient`, `subject`, `message`, `priority`,
`retryCount`, `scheduledFor` and `createdAt` of every stored item unchanged
(only `status`, `metadata` and `updatedAt` may change), and when no stored
item has the given id it returns undefined with the table untouched. -/
theorem updateNotificationQueueStatus_frame :
    (∀ (q : List NotificationQueue) (id st : String)
        (m : Option (List (String × String))) (now : Nat),
      ((MemoryStorage.updateNotificationQueueStatus q id st m now).2).map frameProj
        = q.map frameProj) ∧
    (∀ (q : List NotificationQueue) (id st : String)
        (m : Option (List (String × String))) (now : Nat),
      (∀ n ∈ q, ¬ n.id = id) →
      MemoryStorage.updateNotificationQueueStatus q id st m now = (none, q)) ∧
    (∀ (q : List NotificationQueue) (id st : String)
        (m : Option (List (String × String))) (now : Nat),
      ((DatabaseStorage.updateNotificationQueueStatus q id st m now).2).map frameProj
        = q.map frameProj) ∧
    (∀ (q : List NotificationQueue) (id st : String)
        (m : Option (List (String × String))) (now : Nat),
      (∀ n ∈ q, ¬ n.id = id) →
      DatabaseStorage.updateNotificationQueueStatus q id st m now = (none, q)) := by
  refine ⟨?_, ?_, ?_, ?_⟩
  · intro q id st m now
    induction q with
    | nil => rfl
    | cons y ys ih =>
      by_cases hy : y.id = id
      · simp [MemoryStorage.updateNotificationQueueStatus, hy, frameProj]
      · simp [MemoryStorage.updateNotificationQueueStatus, hy, ih]
  · intro q id st m now
    induction q with
    | nil => intro _; rfl
    | cons y ys ih =>
      intro h
      have hy : ¬ y.id = id := h y (List.mem_cons_self y ys)
      have ht := ih (fun n hn => h n (List.mem_cons_of_mem y hn))
      simp [MemoryStorage.updateNotificationQueueStatus, hy, ht]
  · intro q id st m now
    simp only [DatabaseStorage.updateNotificationQueueStatus]
    rw [List.map_map]
    apply List.map_congr_left
    intro a _
    by_cases h : a.id = id <;> simp [h, frameProj, Function.comp]
  · intro q id st m now
    induction q with
    | nil => intro _; rfl
    | cons y ys ih =>
      intro h
      have hy : ¬ y.id = id := h y (List.mem_cons_self y ys)
      have ht := ih (fun n hn => h n (List.mem_cons_of_mem y hn))
      simp only [DatabaseStorage.updateNotificationQueueStatus, Prod.mk.injEq,
        List.map_cons, List.filter_cons] at ht ⊢
      simp [hy, ht.1, ht.2]
      exact fun n hn => h n (List.mem_cons_of_mem y hn)

/-- C9 witness: the frame theorem applied to the one-item store, both for a
matching and for a missing id. -/
theorem updateNotificationQueueStatus_frame_witness :
    ((MemoryStorage.updateNotificationQueueStatus
        [pendingItem] "n1" "processing" none 40).2).map frameProj
      = [pendingItem].map frameProj ∧
    MemoryStorage.updateNotificationQueueStatus [pendingItem] "zz" "processing" none 40
      = (none, [pendingItem]) ∧
    DatabaseStorage.updateNotificationQueueStatus [pendingItem] "zz" "processing" none 40
      = (none, [pendingItem]) :=
  ⟨updateNotificationQueueStatus_frame.1 [pendingItem] "n1" "processing" none 40,
   updateNotificationQueueStatus_frame.2.1 [pendingItem] "zz" "processing" none 40
     (by decide),
   updateNotificationQueueStatus_frame.2.2.2 [pendingItem] "zz" "processing" none 40
     (by decide)⟩

/-! ### C5: append-only notification log -/

/-- A stored log row recording a successful delivery attempt. -/
def logRow : NotificationLog :=
  { id := "l1", notificationId := some "n1", userId := some "u1", channel := "email"
  , recipient := "user@example.com", status := "sent", errorMessage := none
  , createdAt := 10 }

/-- A `Partial<NotificationLog>` patch flipping only the status. -/
def statusPatch : NotificationLogPatch :=
  { id := none, notificationId := none, userId := none, channel := none
  , recipient := none, status := some "failed", errorMessage := none
  , createdAt := none }

/-- C5 counterexample: the storage layer operation `updateNotificationLog`
rewrites an existing log row in place (here its status flips from sent to
failed), so the log is not append-only under the full storage interface. -/
theorem updateNotificationLog_mutates_cex :
    logRow.status = "sent" ∧
    (MemoryStorage.updateNotificationLog [logRow] "l1" statusPatch).2
      = [{ logRow with status := "failed" }] ∧
    (MemoryStorage.updateNotificationLog [logRow] "l1" statusPatch).1
      = some { logRow with status := "failed" } := by decide

/-- C5 amended: `createNotificationLog` alone is append-only — each call
appends exactly one new row carrying the attempt data and leaves every
existing row unchanged (retries append separate rows) — while
`updateNotificationLog` can rewrite the first row with a given id in place
(it never inserts or deletes rows). -/
theorem createNotificationLog_appends :
    (∀ (logs : List NotificationLog) (ins : InsertNotificationLog)
        (fid : String) (now : Nat),
      (MemoryStorage.createNotificationLog logs ins fid now).2
        = logs ++ [(MemoryStorage.createNotificationLog logs ins fid now).1]) ∧
    (∀ (logs : List NotificationLog) (ins : InsertNotificationLog)
        (fid : String) (now : Nat),
      (MemoryStorage.createNotificationLog logs ins fid now).1.status = ins.status ∧
      (MemoryStorage.createNotificationLog logs ins fid now).1.channel = ins.channel) ∧
    (∀ (logs : List NotificationLog) (id : String) (patch : NotificationLogPatch),
      ((MemoryStorage.updateNotificationLog logs id patch).2).length = logs.length) := by
  refine ⟨fun logs ins fid now => rfl, fun logs ins fid now => ⟨rfl, rfl⟩, ?_⟩
  intro logs id patch
  induction logs with
  | nil => rfl
  | cons y ys ih =>
    by_cases hy : y.id = id
    · simp [MemoryStorage.updateNotificationLog, hy]
    · simp [MemoryStorage.updateNotificationLog, hy, ih]

/-! ### C6: channel resolution for dispatch -/

/-- A disabled, unhealthy channel of type email. -/
def disabledChannel : NotificationChannel :=
  { id := "c1", name := "Email", type := "email", isEnabled := false
  , isHealthy := false, errorCount := 9, successCount := 0 }

/-- An enabled but unhealthy channel of type email. -/
def unhealthyChannel : NotificationChannel :=
  { id := "c2", name := "Email backup", type := "email", isEnabled := true
  , isHealthy := false, errorCount := 9, successCount := 0 }

/-- C6 counterexample: `DatabaseStorage.getNotificationChannelByType` returns
a channel that is disabled and unhealthy, and the MemoryStorage version
returns an enabled but unhealthy channel: a disabled or unhealthy channel
can be handed out for dispatch. -/
theorem getNotificationChannelByType_unhealthy_cex :
    DatabaseStorage.getNotificationChannelByType [disabledChannel] "email"
      = some disabledChannel ∧
    disabledChannel.isEnabled = false ∧ disabledChannel.isHealthy = false ∧
    MemoryStorage.getNotificationChannelByType [unhealthyChannel] "email"
      = some unhealthyChannel ∧
    unhealthyChannel.isHealthy = false := by decide

/-- C6 amended: the only guarantees are that a channel returned by
`DatabaseStorage.getNotificationChannelByType` has the requested type, and
one returned by the MemoryStorage version has the requested type and is
enabled; neither backend consults `isHealthy`, and the database backend
does not even consult `isEnabled`. -/
theorem getNotificationChannelByType_guarantees :
    (∀ (chs : List NotificationChannel) (t : String) (c : NotificationChannel),
      DatabaseStorage.getNotificationChannelByType chs t = some c → c.type = t) ∧
    (∀ (chs : List NotificationChannel) (t : String) (c : NotificationChannel),
      MemoryStorage.getNotificationChannelByType chs t = some c →
        c.type = t ∧ c.isEnabled = true) := by
  constructor
  · intro chs t c h
    have hp := List.find?_some h
    simpa using hp
  · intro chs t c h
    have hp := List.find?_some h
    simp only [Bool.and_eq_true, decide_eq_true_eq] at hp
    exact hp

/-- C6 witness: the amended theorem applied to the two fixture channels. -/
theorem getNotificationChannelByType_guarantees_witness :
    disabledChannel.type = "email" ∧
      (unhealthyChannel.type = "email" ∧ unhealthyChannel.isEnabled = true) :=
  ⟨getNotificationChannelByType_guarantees.1 [disabledChannel] "email"
      disabledChannel (by decide),
   getNotificationChannelByType_guarantees.2 [unhealthyChannel] "email"
      unhealthyChannel (by decide)⟩

/-! ### C7: statistics across the two backends -/

/-- A log row recording a sent telegram delivery. -/
def sentTelegramLog : NotificationLog :=
  { id := "l2", notificationId := none, userId := none, channel := "telegram"
  , recipient := "@user", status := "sent", errorMessage := none, createdAt := 10 }

/-- C7 counterexample: on the same single-row log, `DatabaseStorage` counts
zero sent rows (it counts status delivered, not sent) while `MemoryStorage`
counts one successful row; the database breakdown has no telegram bucket at
all, the memory breakdown does — the two backends are not observationally
equivalent and the database `sent` field does not count rows recorded as
sent. -/
theorem getNotificationStats_divergence_cex :
    (DatabaseStorage.getNotificationStats [sentTelegramLog] none none).sent = 0 ∧
    (MemoryStorage.getNotificationStats [sentTelegramLog] none none).successful = 1 ∧
    ([sentTelegramLog].filter (fun l => l.status = "sent")).length = 1 ∧
    (DatabaseStorage.getNotificationStats [sentTelegramLog] none none).channelsEmail = 0 ∧
    (DatabaseStorage.getNotificationStats [sentTelegramLog] none none).channelsSms = 0 ∧
    (DatabaseStorage.getNotificationStats [sentTelegramLog] none none).channelsPush = 0 ∧
    (MemoryStorage.getNotificationStats [sentTelegramLog] none none).byChannel
      = [("telegram", 1)] := by decide

/-- C7 amended: the two implementations return records of different shapes
and are not equivalent; they do agree on the row total and the failed count
whenever at most one date bound is supplied (with both bounds supplied the
database backend applies only the upper one). The sent-side counts differ:
the database counts status delivered, the memory backend status sent, and
the breakdowns differ as in the counterexample. -/
theorem getNotificationStats_partial_agreement :
    ∀ (logs : List NotificationLog) (dateFrom dateTo : Option Nat),
      dateFrom = none ∨ dateTo = none →
      (DatabaseStorage.getNotificationStats logs dateFrom dateTo).total
        = (MemoryStorage.getNotificationStats logs dateFrom dateTo).total ∧
      (DatabaseStorage.getNotificationStats logs dateFrom dateTo).failed
        = (MemoryStorage.getNotificationStats logs dateFrom dateTo).failed := by
  intro logs dateFrom dateTo h
  rcases h with rfl | rfl
  · cases dateTo with
    | none => exact ⟨rfl, rfl⟩
    | some t => exact ⟨rfl, rfl⟩
  · cases dateFrom with
    | none => exact ⟨rfl, rfl⟩
    | some f => exact ⟨rfl, rfl⟩

/-- C7 witness: the agreement applied to the one-row log with only an upper
date bound. -/
theorem getNotificationStats_partial_agreement_witness :
    (DatabaseStorage.getNotificationStats [sentTelegramLog] none (some 100)).total
      = (MemoryStorage.getNotificationStats [sentTelegramLog] none (some 100)).total ∧
    (DatabaseStorage.getNotificationStats [sentTelegramLog] none (some 100)).failed
      = (MemoryStorage.getNotificationStats [sentTelegramLog] none (some 100)).failed :=
  getNotificationStats_partial_agreement [sentTelegramLog] none (some 100) (Or.inl rfl)

/-! ### C8 and C10: the email adapter boundary -/

/-- C8: `sendEmail` never lets a transport exception escape: for every
configuration, transport behavior and input, the call resolves to
`Except.ok` of a boolean — true exactly when the service is enabled and the
transport call succeeds, false otherwise (every thrown transport error is
caught and mapped to false). -/
theorem sendEmail_never_throws :
    ∀ (isEnabled : Bool) (send : MailData → Except String Unit) (params : EmailParams),
      (EmailService.sendEmail isEnabled send params).1
        = Except.ok (isEnabled && (send (EmailService.mailDataOf params)).isOk) := by
  intro isEnabled send params
  cases isEnabled with
  | false => rfl
  | true =>
    cases h : send (EmailService.mailDataOf params) with
    | ok v => simp [EmailService.sendEmail, h, Except.isOk, Except.toBool]
    | error e => simp [EmailService.sendEmail, h, Except.isOk, Except.toBool]

/-- C10: when the service is disabled (no SENDGRID_API_KEY at construction),
`sendEmail` returns false for every input without invoking the transport at
all, and in every configuration the result is a resolved boolean, never a
rejection. -/
theorem sendEmail_disabled_short_circuit :
    (∀ (send : MailData → Except String Unit) (params : EmailParams),
      EmailService.sendEmail false send params = (Except.ok false, [])) ∧
    (∀ (isEnabled : Bool) (send : MailData → Except String Unit) (params : EmailParams),
      ((EmailService.sendEmail isEnabled send params).1).isOk = true) := by
  constructor
  · intro send params; rfl
  · intro isEnabled send params
    cases isEnabled with
    | false => rfl
    | true =>
      cases h : send (EmailService.mailDataOf params) with
      | ok v => simp [EmailService.sendEmail, h, Except.isOk, Except.toBool]
      | error e => simp [EmailService.sendEmail, h, Except.isOk, Except.toBool]
